import Mathlib

/-
Verification of the Ijaw rule-based translation engine
(src/backend/ijaw_grammar.py): a shallow embedding of the lexicon tables,
the word classifier, the single-pass sentence tagger and the template
cascade, together with proofs of the specified properties.
-/

set_option maxRecDepth 4000

/-- Whitespace test matching Python str.split / str.strip on the inputs
considered here. -/
def isWs (c : Char) : Bool := c = ' ' || c = '\t' || c = '\n' || c = '\r'

/-- ASCII lower-casing of one character, as Python str.lower acts on the
ASCII range. -/
def lowerChar (c : Char) : Char :=
  if 65 ≤ c.toNat ∧ c.toNat ≤ 90 then Char.ofNat (c.toNat + 32) else c

/-- Python sentence.lower() (ASCII range). -/
def pyLower (s : String) : String := String.mk (s.data.map lowerChar)

/-- Python sentence.strip(): drop leading and trailing whitespace. -/
def pyStrip (s : String) : String :=
  String.mk (((s.data.dropWhile isWs).reverse.dropWhile isWs).reverse)

/-- Helper for pySplit: accumulate the current word (reversed) while
scanning the character list. -/
def splitWsAux : List Char → List Char → List String
  | [], acc => if acc.isEmpty then [] else [String.mk acc.reverse]
  | c :: cs, acc =>
    if isWs c then
      if acc.isEmpty then splitWsAux cs []
      else String.mk acc.reverse :: splitWsAux cs []
    else splitWsAux cs (c :: acc)

/-- Python sentence.split(): split on whitespace runs, no empty tokens. -/
def pySplit (s : String) : List String := splitWsAux s.data []

/-- Python sentence.startswith(t). -/
def pyStartswith (s t : String) : Bool := decide (s.data.take t.data.length = t.data)

/-- Space-joined concatenation, Python " ".join(ws). -/
def joinSp : List String → String
  | [] => ""
  | [w] => w
  | w :: ws => w ++ " " ++ joinSp ws

def pronouns : List (String × String) := [
  ("I", "Arí"),
  ("you", "Ị"),
  ("he", "U"),
  ("she", "A"),
  ("we", "Wónì"),
  ("they", "Wónì"),
  ("my", "yè"),
  ("your", "wè"),
  ("his", "yè"),
  ("her", "yè"),
  ("our", "wónì"),
  ("their", "wónì")
]

def verbs : List (String × String) := [
  ("am", "ye"),
  ("is", "ye"),
  ("are", "ye"),
  ("have", "sabi"),
  ("has", "sabi"),
  ("want", "wọnt"),
  ("wants", "wọnt"),
  ("like", "laik"),
  ("likes", "laik"),
  ("see", "fịnị"),
  ("sees", "fịnị"),
  ("eat", "fị"),
  ("eats", "fị"),
  ("drink", "mu"),
  ("drinks", "mu"),
  ("go", "gha"),
  ("goes", "gha"),
  ("come", "bia"),
  ("comes", "bia"),
  ("work", "wok"),
  ("works", "wok"),
  ("sleep", "turu"),
  ("sleeps", "turu"),
  ("build", "bil"),
  ("builds", "bil"),
  ("take", "akị́"),
  ("takes", "akị́"),
  ("give", "giv"),
  ("gives", "giv"),
  ("help", "help"),
  ("helps", "help"),
  ("walk", "waka"),
  ("walks", "waka"),
  ("run", "ron"),
  ("runs", "ron"),
  ("dance", "dans"),
  ("dances", "dans"),
  ("sing", "son"),
  ("sings", "son"),
  ("cook", "nkọ̀rọ"),
  ("cooks", "nkọ̀rọ")
]

def nouns : List (String × String) := [
  ("house", "wárị"),
  ("water", "bení"),
  ("food", "fị́yaị"),
  ("fish", "ìndí"),
  ("river", "ọ́wụ"),
  ("sun", "sọ́"),
  ("moon", "akalụ́"),
  ("child", "tọ́bọ̀ụ"),
  ("friend", "kẹ́nị"),
  ("family", "wárịbịbị̀"),
  ("father", "owéi"),
  ("mother", "ẹ́rẹ"),
  ("brother", "bàrà"),
  ("sister", "eréwèrí"),
  ("money", "abadị-ugú"),
  ("yam", "òkù-ị̀wẹ"),
  ("cassava", "abábùrú"),
  ("canoe", "òrù"),
  ("cup", "agbéì"),
  ("net", "agbunú"),
  ("market", "maket"),
  ("village", "òkù-ámà"),
  ("farm", "ògbó"),
  ("fire", "faya"),
  ("ancestor", "ìwéi"),
  ("ancestors", "ìwéi-wónì"),
  ("children", "tọ́bọ̀ụ-wónì"),
  ("friends", "kẹ́nị-wónì"),
  ("people", "òkù-wónì")
]

def adjectives : List (String × String) := [
  ("good", "botu"),
  ("bad", "kiri"),
  ("big", "toru"),
  ("small", "kiri-kiri"),
  ("happy", "hapi"),
  ("tired", "sik"),
  ("strong", "strong"),
  ("wise", "akíròro"),
  ("kind", "botu"),
  ("busy", "wok haad"),
  ("hungry", "hongri"),
  ("thirsty", "tosti"),
  ("hot", "tuu dọ́n"),
  ("cold", "kol"),
  ("clean", "klin"),
  ("fresh", "nyu"),
  ("warm", "hot"),
  ("bright", "rait"),
  ("deep", "tọ́n"),
  ("long", "pórù"),
  ("tall", "toru"),
  ("beautiful", "fain"),
  ("angry", "kírimá"),
  ("sad", "kiri"),
  ("old", "òkú"),
  ("young", "tọ́bọ̀ụ"),
  ("new", "nyu"),
  ("fast", "fast"),
  ("slow", "slow"),
  ("sick", "sik")
]

/-- Word roles, WordType in the source. -/
inductive WordType where
  | subject | object | verb | adjective | pronoun | noun
  | preposition | determiner | unknown
deriving DecidableEq

/-- IjawGrammarEngine.classify_word: priority lookup of the lower-cased
token across the role tables, then the closed determiner and preposition
lists, else unknown. -/
def classify_word (word : String) : WordType :=
  let w := pyLower word
  if (List.lookup w pronouns).isSome then WordType.pronoun
  else if (List.lookup w verbs).isSome then WordType.verb
  else if (List.lookup w nouns).isSome then WordType.noun
  else if (List.lookup w adjectives).isSome then WordType.adjective
  else if w ∈ ["the", "a", "an", "this", "that"] then WordType.determiner
  else if w ∈ ["to", "at", "in", "on", "with", "from"] then WordType.preposition
  else WordType.unknown

/-- IjawGrammarEngine.translate_word: the flat phrase dictionary d first,
then the pronoun, verb, noun and adjective tables, else the word unchanged
(original casing). -/
def translate_word (d : List (String × String)) (word : String) : String :=
  let w := pyLower word
  match List.lookup w d with
  | some v => v
  | none =>
    match List.lookup w pronouns with
    | some v => v
    | none =>
      match List.lookup w verbs with
      | some v => v
      | none =>
        match List.lookup w nouns with
        | some v => v
        | none =>
          match List.lookup w adjectives with
          | some v => v
          | none => word

/-- The parse result of IjawGrammarEngine.parse_sentence: one optional
slot per sentence role. -/
structure Parsed where
  subject : Option String
  object : Option String
  verb : Option String
  adjective : Option String
  preposition : Option String
  location : Option String
  time : Option String
  question_type : Option String

/-- The all-empty parse record that parse_sentence starts from. -/
def initParsed : Parsed := ⟨none, none, none, none, none, none, none, none⟩

/-- The closed possessive-pronoun list excluded from subject assignment. -/
def possessives : List String := ["my", "your", "his", "her", "our", "their"]

/-- The closed place-noun list that may fill the location slot. -/
def placeNouns : List String := ["house", "market", "river", "village", "farm"]

/-- The closed temporal-word list that fills the time slot. -/
def timeWords : List String := ["now", "today", "tomorrow", "early", "late"]

/-- One iteration of the token loop of IjawGrammarEngine.parse_sentence. -/
def parseStep (p : Parsed) (word : String) : Parsed :=
  let wt := classify_word word
  if wt = WordType.pronoun ∧ p.subject = none ∧ word ∉ possessives then
    { p with subject := some word }
  else if wt = WordType.verb ∧ p.verb = none then
    { p with verb := some word }
  else if wt = WordType.noun then
    if p.object = none then { p with object := some word }
    else if word ∈ placeNouns then { p with location := some word }
    else p
  else if wt = WordType.adjective ∧ p.adjective = none then
    { p with adjective := some word }
  else if word ∈ timeWords then
    { p with time := some word }
  else p

/-- The token loop of parse_sentence over an already-tokenized sentence. -/
def parse_tokens (words : List String) : Parsed := List.foldl parseStep initParsed words

/-- Question detection of parse_sentence: literal startswith tests on the
original (not lower-cased) sentence. -/
def question_of (sentence : String) : Option String :=
  if pyStartswith sentence "where" then some "where"
  else if pyStartswith sentence "how are" then some "how_are"
  else if pyStartswith sentence "do you have" then some "do_you_have"
  else none

/-- IjawGrammarEngine.parse_sentence: lower-case, strip and split the
sentence, run the token loop, then set question_type from the original
sentence. -/
def parse_sentence (sentence : String) : Parsed :=
  { parse_tokens (pySplit (pyStrip (pyLower sentence))) with
      question_type := question_of sentence }


/-- Rendering of the Subject+Object+Verb branch of generate_translation,
with the special-cased irregular verbs. -/
def sov_render (d : List (String × String)) (parsed : Parsed) : String :=
  let subj := translate_word d (parsed.subject.getD "")
  let obj := translate_word d (parsed.object.getD "")
  let verb := translate_word d (parsed.verb.getD "")
  if parsed.verb = some "have" ∨ parsed.verb = some "has" then
    subj ++ " " ++ obj ++ " sabi"
  else if parsed.verb = some "want" ∨ parsed.verb = some "wants" then
    subj ++ " " ++ obj ++ " wọnt"
  else if parsed.verb = some "like" ∨ parsed.verb = some "likes" then
    subj ++ " " ++ obj ++ " laik"
  else if parsed.verb = some "eat" ∨ parsed.verb = some "eats" then
    subj ++ " " ++ obj ++ " fị"
  else if parsed.verb = some "build" ∨ parsed.verb = some "builds" then
    subj ++ " " ++ obj ++ " bil"
  else subj ++ " " ++ obj ++ " " ++ verb

/-- Rendering of the Subject+Verb branch of generate_translation, with the
location, time and copula special cases. -/
def sv_render (d : List (String × String)) (parsed : Parsed) : String :=
  let subj := translate_word d (parsed.subject.getD "")
  let verb := translate_word d (parsed.verb.getD "")
  if parsed.location ≠ none then
    let loc := translate_word d (parsed.location.getD "")
    if parsed.verb = some "go" ∨ parsed.verb = some "goes" then
      subj ++ " " ++ loc ++ " gha"
    else if parsed.verb = some "come" ∨ parsed.verb = some "comes" then
      subj ++ " " ++ loc ++ " bia"
    else if parsed.verb = some "walk" ∨ parsed.verb = some "walks" then
      subj ++ " " ++ loc ++ " waka"
    else subj ++ " " ++ loc ++ " " ++ verb
  else if parsed.time ≠ none then
    subj ++ " " ++ translate_word d (parsed.time.getD "") ++ " " ++ verb
  else if parsed.verb = some "am" ∨ parsed.verb = some "is" ∨ parsed.verb = some "are" then
    subj ++ " ye"
  else subj ++ " " ++ verb

/-- The terminal word-by-word fallback of generate_translation: split the
original sentence on whitespace and translate each token. -/
def word_fallback (d : List (String × String)) (sentence : String) : String :=
  joinSp ((pySplit sentence).map (translate_word d))

/-- The possessive-phrase section of generate_translation followed by the
word-by-word fallback. -/
def possessive_or_fallback (d : List (String × String)) (sentence : String) : String :=
  let words := pySplit (pyStrip (pyLower sentence))
  if 2 ≤ words.length ∧ words.getD 0 "" ∈ possessives then
    let poss := translate_word d (words.getD 0 "")
    let noun := translate_word d (words.getD 1 "")
    if words.length = 2 then
      noun ++ " " ++ poss
    else if words.length = 3 ∧ (words.getD 2 "" = "is" ∨ words.getD 2 "" = "are") then
      noun ++ " " ++ poss ++ " ye"
    else if 3 ≤ words.length then
      if (words.getD 2 "" = "is" ∨ words.getD 2 "" = "are") ∧ words.length = 4
          ∧ (List.lookup (words.getD 3 "") adjectives).isSome then
        poss ++ " " ++ noun ++ " " ++ translate_word d (words.getD 3 "") ++ " ye"
      else if (words.getD 2 "" = "is" ∨ words.getD 2 "" = "are") ∧ words.length = 4 then
        noun ++ " " ++ poss ++ " " ++ translate_word d (words.getD 3 "") ++ " ye"
      else
        noun ++ " " ++ poss ++ " " ++ joinSp ((words.drop 2).map (translate_word d))
    else word_fallback d sentence
  else word_fallback d sentence

/-- The template cascade of generate_translation after the verbatim
phrase-dictionary lookup missed: question templates, then the slot-based
templates, then the possessive section, then the word-by-word fallback. -/
def generate_rules (d : List (String × String)) (sentence : String) : String :=
  let parsed := parse_sentence sentence
  if parsed.question_type = some "how_are" then "I bódọụ?"
  else if parsed.question_type = some "where" ∧ parsed.object ≠ none then
    translate_word d (parsed.object.getD "") ++ " kí ye?"
  else if parsed.question_type = some "do_you_have" ∧ parsed.object ≠ none then
    "Ị " ++ translate_word d (parsed.object.getD "") ++ " sabi?"
  else if parsed.subject ≠ none ∧ parsed.adjective ≠ none then
    translate_word d (parsed.subject.getD "") ++ " "
      ++ translate_word d (parsed.adjective.getD "") ++ " ye"
  else if parsed.subject ≠ none ∧ parsed.object ≠ none ∧ parsed.verb ≠ none then
    sov_render d parsed
  else if parsed.subject ≠ none ∧ parsed.verb ≠ none then
    sv_render d parsed
  else possessive_or_fallback d sentence

/-- IjawGrammarEngine.generate_translation over the phrase dictionary d:
return the dictionary value of the lower-cased, stripped sentence when
present, otherwise run the template cascade. -/
def generate_translation (d : List (String × String)) (sentence : String) : String :=
  match List.lookup (pyStrip (pyLower sentence)) d with
  | some v => v
  | none => generate_rules d sentence


/-- One parser step never clears or replaces a non-empty subject slot. -/
theorem parseStep_subject_mono (p : Parsed) (w x : String) (h : p.subject = some x) :
    (parseStep p w).subject = some x := by
  simp only [parseStep]
  repeat' split
  all_goals simp_all

/-- One parser step never clears or replaces a non-empty object slot. -/
theorem parseStep_object_mono (p : Parsed) (w x : String) (h : p.object = some x) :
    (parseStep p w).object = some x := by
  simp only [parseStep]
  repeat' split
  all_goals simp_all

/-- One parser step never clears or replaces a non-empty verb slot. -/
theorem parseStep_verb_mono (p : Parsed) (w x : String) (h : p.verb = some x) :
    (parseStep p w).verb = some x := by
  simp only [parseStep]
  repeat' split
  all_goals simp_all

/-- One parser step never clears or replaces a non-empty adjective slot. -/
theorem parseStep_adjective_mono (p : Parsed) (w x : String) (h : p.adjective = some x) :
    (parseStep p w).adjective = some x := by
  simp only [parseStep]
  repeat' split
  all_goals simp_all

/-- The token loop never clears or replaces a non-empty subject slot. -/
theorem foldl_subject_mono (l : List String) (p : Parsed) (x : String)
    (h : p.subject = some x) : (List.foldl parseStep p l).subject = some x := by
  induction l generalizing p with
  | nil => simpa using h
  | cons w ws ih =>
    simp only [List.foldl_cons]
    exact ih (parseStep p w) (parseStep_subject_mono p w x h)

/-- The token loop never clears or replaces a non-empty object slot. -/
theorem foldl_object_mono (l : List String) (p : Parsed) (x : String)
    (h : p.object = some x) : (List.foldl parseStep p l).object = some x := by
  induction l generalizing p with
  | nil => simpa using h
  | cons w ws ih =>
    simp only [List.foldl_cons]
    exact ih (parseStep p w) (parseStep_object_mono p w x h)

/-- The token loop never clears or replaces a non-empty verb slot. -/
theorem foldl_verb_mono (l : List String) (p : Parsed) (x : String)
    (h : p.verb = some x) : (List.foldl parseStep p l).verb = some x := by
  induction l generalizing p with
  | nil => simpa using h
  | cons w ws ih =>
    simp only [List.foldl_cons]
    exact ih (parseStep p w) (parseStep_verb_mono p w x h)

/-- The token loop never clears or replaces a non-empty adjective slot. -/
theorem foldl_adjective_mono (l : List String) (p : Parsed) (x : String)
    (h : p.adjective = some x) : (List.foldl parseStep p l).adjective = some x := by
  induction l generalizing p with
  | nil => simpa using h
  | cons w ws ih =>
    simp only [List.foldl_cons]
    exact ih (parseStep p w) (parseStep_adjective_mono p w x h)

/-- One parser step either leaves the subject slot unchanged or fills it
with the current token, which is then not a possessive pronoun. -/
theorem parseStep_subject_char (p : Parsed) (w : String) :
    (parseStep p w).subject = p.subject ∨
      ((parseStep p w).subject = some w ∧ w ∉ possessives) := by
  simp only [parseStep]
  repeat' split
  all_goals first
    | exact Or.inl rfl
    | (rename_i hc; exact Or.inr ⟨rfl, hc.2.2⟩)

/-- The token loop preserves the invariant that the subject slot never
holds a possessive pronoun. -/
theorem foldl_subject_not_poss (l : List String) (p : Parsed)
    (h : ∀ x, p.subject = some x → x ∉ possessives) :
    ∀ x, (List.foldl parseStep p l).subject = some x → x ∉ possessives := by
  induction l generalizing p with
  | nil => simpa using h
  | cons w ws ih =>
    simp only [List.foldl_cons]
    apply ih
    intro x hx
    rcases parseStep_subject_char p w with hc | ⟨hc, hw⟩
    · exact h x (by rw [← hc]; exact hx)
    · rw [hc] at hx
      exact Option.some.inj hx ▸ hw

/-- One parser step preserves the invariant that a filled location slot
implies a filled object slot. -/
theorem parseStep_loc_obj (p : Parsed) (w : String)
    (h : p.location.isSome = true → p.object.isSome = true) :
    (parseStep p w).location.isSome = true → (parseStep p w).object.isSome = true := by
  simp only [parseStep]
  repeat' split
  all_goals simp_all [Option.ne_none_iff_isSome]

/-- The token loop preserves the invariant that a filled location slot
implies a filled object slot. -/
theorem foldl_loc_obj (l : List String) (p : Parsed)
    (h : p.location.isSome = true → p.object.isSome = true) :
    (List.foldl parseStep p l).location.isSome = true →
      (List.foldl parseStep p l).object.isSome = true := by
  induction l generalizing p with
  | nil => simpa using h
  | cons w ws ih =>
    simp only [List.foldl_cons]
    exact ih (parseStep p w) (parseStep_loc_obj p w h)

/-- Claim C1: for every sentence whose lower-cased, stripped form is a key
of the phrase dictionary, generate_translation returns exactly the
dictionary value for that key, bypassing the tagger and template cascade. -/
theorem c1_phrase_override (d : List (String × String)) (s v : String)
    (h : List.lookup (pyStrip (pyLower s)) d = some v) :
    generate_translation d s = v := by
  unfold generate_translation
  rw [h]

/-- Claim C1 witness: the dictionary value of "hello" overrides the cascade
on the input "Hello ". -/
theorem c1_phrase_override_w :
    generate_translation [("hello", "nua")] "Hello " = "nua" :=
  c1_phrase_override [("hello", "nua")] "Hello " "nua" (by decide)

/-- Claim C2: generate_translation is total (it always yields a string),
and when the empty string is not a phrase-dictionary key,
generate_translation of the empty sentence is the empty string. -/
theorem c2_total_empty (d : List (String × String)) (s : String)
    (h : List.lookup (pyStrip (pyLower "")) d = none) :
    (∃ t, generate_translation d s = t) ∧ generate_translation d "" = "" := by
  refine ⟨⟨generate_translation d s, rfl⟩, ?_⟩
  unfold generate_translation
  rw [h]
  rfl

/-- Claim C2 witness: evaluation at a concrete dictionary and sentence. -/
theorem c2_total_empty_w :
    (∃ t, generate_translation [("a", "b")] "xyz" = t) ∧
      generate_translation [("a", "b")] "" = "" :=
  c2_total_empty [("a", "b")] "xyz" (by decide)

/-- Claim C3 counterexample: the location and time slots are not
first-match-wins. After the token "now" the time slot holds "now", yet the
same parse of "now today" ends with time "today"; likewise the location
slot of "water house market" holds "house" after two tokens and "market"
at the end. -/
theorem c3_first_match_cex :
    (parse_tokens ["now"]).time = some "now" ∧
    (parse_sentence "now today").time = some "today" ∧
    (parse_tokens ["water", "house"]).location = some "house" ∧
    (parse_sentence "water house market").location = some "market" := by decide

/-- Claim C3 amended: during a single parse the subject, object, verb and
adjective slots are first-match-wins — once one of them is non-empty after
some prefix of the token list, the completed parse returns the same value
for that slot. (The location and time slots carry no such guard.) -/
theorem c3_first_match_amended (s : String) (l1 l2 : List String) (x : String)
    (hsplit : pySplit (pyStrip (pyLower s)) = l1 ++ l2) :
    ((parse_tokens l1).subject = some x → (parse_sentence s).subject = some x) ∧
    ((parse_tokens l1).object = some x → (parse_sentence s).object = some x) ∧
    ((parse_tokens l1).verb = some x → (parse_sentence s).verb = some x) ∧
    ((parse_tokens l1).adjective = some x → (parse_sentence s).adjective = some x) := by
  have happ : parse_tokens (l1 ++ l2) = List.foldl parseStep (parse_tokens l1) l2 := by
    simp [parse_tokens, List.foldl_append]
  refine ⟨fun h => ?_, fun h => ?_, fun h => ?_, fun h => ?_⟩
  · show (parse_tokens (pySplit (pyStrip (pyLower s)))).subject = some x
    rw [hsplit, happ]
    exact foldl_subject_mono l2 (parse_tokens l1) x h
  · show (parse_tokens (pySplit (pyStrip (pyLower s)))).object = some x
    rw [hsplit, happ]
    exact foldl_object_mono l2 (parse_tokens l1) x h
  · show (parse_tokens (pySplit (pyStrip (pyLower s)))).verb = some x
    rw [hsplit, happ]
    exact foldl_verb_mono l2 (parse_tokens l1) x h
  · show (parse_tokens (pySplit (pyStrip (pyLower s)))).adjective = some x
    rw [hsplit, happ]
    exact foldl_adjective_mono l2 (parse_tokens l1) x h

/-- Claim C3 amended witness: the subject "she" set by the first token of
"she and he" survives to the end of the parse. -/
theorem c3_first_match_amended_w :
    (parse_sentence "she and he").subject = some "she" :=
  (c3_first_match_amended "she and he" ["she"] ["and", "he"] "she" (by decide)).1
    (by decide)

/-- Claim C6: when the first token of the lower-cased, split sentence is a
possessive pronoun, parse_sentence never places that token in the subject
slot (indeed no possessive pronoun ever fills the subject slot). -/
theorem c6_possessive_not_subject (s w : String)
    (h1 : (pySplit (pyStrip (pyLower s))).head? = some w)
    (h2 : w ∈ possessives) :
    (parse_sentence s).subject ≠ some w := by
  intro hc
  have hsub : (parse_tokens (pySplit (pyStrip (pyLower s)))).subject = some w := hc
  exact foldl_subject_not_poss (pySplit (pyStrip (pyLower s))) initParsed
    (by intro x hx; simp [initParsed] at hx) w hsub h2

/-- Claim C6 witness: in "my father" the first token "my" is a possessive
pronoun and does not become the subject. -/
theorem c6_possessive_not_subject_w :
    (parse_sentence "my father").subject ≠ some "my" :=
  c6_possessive_not_subject "my father" "my" (by decide) (by decide)

/-- Claim C9: in the slots returned by parse_sentence a filled location
slot implies a filled object slot — the location branch only runs when the
object slot is already non-empty, and the object slot is never cleared. -/
theorem c9_location_implies_object (s : String)
    (h : (parse_sentence s).location.isSome = true) :
    (parse_sentence s).object.isSome = true := by
  have hloc : (parse_tokens (pySplit (pyStrip (pyLower s)))).location.isSome = true := h
  exact foldl_loc_obj (pySplit (pyStrip (pyLower s))) initParsed
    (by intro hx; simp [initParsed] at hx) hloc

/-- Claim C9 witness: "water house" fills location with "house" and indeed
has a filled object slot. -/
theorem c9_location_implies_object_w :
    (parse_sentence "water house").object.isSome = true :=
  c9_location_implies_object "water house" (by decide)

/-- Claim C10: question detection is case-sensitive on the original
sentence. When the sentence does not literally start with "where",
"how are" or "do you have", parse_sentence leaves question_type unset. -/
theorem c10_question_case_sensitive (s : String)
    (h1 : pyStartswith s "where" = false)
    (h2 : pyStartswith s "how are" = false)
    (h3 : pyStartswith s "do you have" = false) :
    (parse_sentence s).question_type = none := by
  show question_of s = none
  simp [question_of, h1, h2, h3]

/-- Claim C10 witness: "Where is the river?" (capital W) gets no question
type even though its lower-cased form starts with "where". -/
theorem c10_question_case_sensitive_w :
    (parse_sentence "Where is the river?").question_type = none :=
  c10_question_case_sensitive "Where is the river?" (by decide) (by decide) (by decide)

/-- Claim C4 (code-bug evidence): on "I am happy" with an empty phrase
dictionary the classifier does not recognise "i" as a pronoun — the
pronoun table keys it as capital "I" while classification lower-cases the
token — so the subject slot stays empty, the Subject+Adjective rule cannot
fire, and the output is the word-by-word fallback "I ye hapi" instead of
the output the claim (and the source comment "I am happy" -> "Arí hapi
ye") describes. -/
theorem c4_capital_i_bug :
    classify_word "I" = WordType.unknown ∧
    (parse_sentence "I am happy").subject = none ∧
    (parse_sentence "I am happy").adjective = some "happy" ∧
    generate_translation [] "I am happy" = "I ye hapi" ∧
    generate_translation [] "I am happy" ≠
      translate_word [] "i" ++ " " ++ translate_word [] "happy" ++ " ye" := by decide

/-- Claim C5 counterexample: in "where is the river?" the question mark
stays attached to the token "river?", which is not in the noun table, so
the object slot stays empty, rule 2 cannot fire, and the output is the
word-by-word fallback, not the where-template. -/
theorem c5_question_mark_cex :
    (parse_sentence "where is the river?").question_type = some "where" ∧
    (parse_sentence "where is the river?").object = none ∧
    generate_translation [] "where is the river?" = "where ye the river?" ∧
    generate_translation [] "where is the river?" ≠
      translate_word [] "river" ++ " kí ye?" := by decide

/-- Claim C5 amended: for the input without the trailing question mark,
"where is the river", whose normalized form is not a phrase-dictionary
key, the tagger sets question_type "where" and object "river", rule 2
fires, and the where-template output is produced. -/
theorem c5_where_no_qmark (d : List (String × String))
    (h : List.lookup (pyStrip (pyLower "where is the river")) d = none) :
    (parse_sentence "where is the river").question_type = some "where" ∧
    (parse_sentence "where is the river").object = some "river" ∧
    generate_translation d "where is the river" =
      translate_word d "river" ++ " kí ye?" := by
  refine ⟨by decide, by decide, ?_⟩
  unfold generate_translation
  rw [h]
  rfl

/-- Claim C5 amended witness: evaluation at the empty phrase dictionary. -/
theorem c5_where_no_qmark_w :
    (parse_sentence "where is the river").question_type = some "where" ∧
    (parse_sentence "where is the river").object = some "river" ∧
    generate_translation [] "where is the river" =
      translate_word [] "river" ++ " kí ye?" :=
  c5_where_no_qmark [] (by decide)

/-- Claim C7: when no cascade rule 1 to 6 matches — the normalized sentence
is not a phrase-dictionary key, no question rule fires, no slot-based rule
fires and the possessive-phrase rule does not apply — generate_translation
returns the whitespace-split tokens of the original sentence each mapped
through translate_word, joined by single spaces. -/
theorem c7_fallback (d : List (String × String)) (s : String)
    (h0 : List.lookup (pyStrip (pyLower s)) d = none)
    (h1 : ¬(parse_sentence s).question_type = some "how_are")
    (h2 : ¬((parse_sentence s).question_type = some "where" ∧
        (parse_sentence s).object ≠ none))
    (h3 : ¬((parse_sentence s).question_type = some "do_you_have" ∧
        (parse_sentence s).object ≠ none))
    (h4 : ¬((parse_sentence s).subject ≠ none ∧ (parse_sentence s).adjective ≠ none))
    (h5 : ¬((parse_sentence s).subject ≠ none ∧ (parse_sentence s).object ≠ none ∧
        (parse_sentence s).verb ≠ none))
    (h6 : ¬((parse_sentence s).subject ≠ none ∧ (parse_sentence s).verb ≠ none))
    (h7 : ¬(2 ≤ (pySplit (pyStrip (pyLower s))).length ∧
        (pySplit (pyStrip (pyLower s))).getD 0 "" ∈ possessives)) :
    generate_translation d s = joinSp ((pySplit s).map (translate_word d)) := by
  unfold generate_translation
  rw [h0]
  show generate_rules d s = _
  simp only [generate_rules]
  rw [if_neg h1, if_neg h2, if_neg h3, if_neg h4, if_neg h5, if_neg h6]
  simp only [possessive_or_fallback]
  rw [if_neg h7]
  rfl

/-- Claim C7 witness: "hello strange world" matches no cascade rule and is
translated token by token (all three tokens pass through unchanged). -/
theorem c7_fallback_w :
    generate_translation [] "hello strange world" =
      joinSp ((pySplit "hello strange world").map (translate_word [])) :=
  c7_fallback [] "hello strange world" (by decide) (by decide) (by decide) (by decide)
    (by decide) (by decide) (by decide) (by decide)

/-- Claim C8: on "she goes home", whose normalized form is assumed absent
from the phrase dictionary, "home" is not in the noun table so the object
and location slots stay empty, subject is "she" and verb is "goes", and
the final else-branch of the Subject+Verb rule renders the translation of
"she" followed by the translation of "goes". -/
theorem c8_she_goes_home (d : List (String × String))
    (h : List.lookup (pyStrip (pyLower "she goes home")) d = none) :
    (parse_sentence "she goes home").object = none ∧
    (parse_sentence "she goes home").location = none ∧
    (parse_sentence "she goes home").subject = some "she" ∧
    (parse_sentence "she goes home").verb = some "goes" ∧
    generate_translation d "she goes home" =
      translate_word d "she" ++ " " ++ translate_word d "goes" := by
  refine ⟨by decide, by decide, by decide, by decide, ?_⟩
  unfold generate_translation
  rw [h]
  rfl

/-- Claim C8 witness: evaluation at the empty phrase dictionary. -/
theorem c8_she_goes_home_w :
    (parse_sentence "she goes home").object = none ∧
    (parse_sentence "she goes home").location = none ∧
    (parse_sentence "she goes home").subject = some "she" ∧
    (parse_sentence "she goes home").verb = some "goes" ∧
    generate_translation [] "she goes home" =
      translate_word [] "she" ++ " " ++ translate_word [] "goes" :=
  c8_she_goes_home [] (by decide)
